import Mathlib

/-!
# Audio stream and audio manager (audio_manager.h)

A shallow embedding of the two classes declared in `src/audio_manager.h`.

* `Audio_Stream` is embedded from its inline member functions.
* The member functions of `Audio_Manager` are only declared in the header; their
  bodies are embedded from the design document and are marked as such.
-/

namespace AudioManager

/-! ## Audio_Stream -/

/-- The abstract class `Audio_Stream`. The base class owns the single field `finished`;
`derived` stands for the fields of the concrete subclass, which no base-class member
function reads or writes. -/
structure Audio_Stream (ε : Type) where
  finished : Bool
  derived : ε
  deriving DecidableEq, Repr

namespace Audio_Stream

variable {ε : Type}

/-- The constructor `Audio_Stream()` with its initialiser list `finished(false)`; `d` is the
state the subclass constructor sets up. -/
def ctor (d : ε) : Audio_Stream ε :=
  { finished := false, derived := d }

/-- The member `void set_finished(bool flag)`, whose body is `finished = true;`. -/
def set_finished (s : Audio_Stream ε) (_flag : Bool) : Audio_Stream ε :=
  { s with finished := true }

/-- The member `bool get_finished()`, whose body is `return finished;`. The member is not
declared `const`, so the embedding returns the object state together with the value. -/
def get_finished (s : Audio_Stream ε) : Bool × Audio_Stream ε :=
  (s.finished, s)

end Audio_Stream

/-- One call of a non-virtual member function of `Audio_Stream`. -/
inductive StreamCall where
  | set_finished (b : Bool)
  | get_finished
  deriving DecidableEq, Repr

/-- Perform one call on a stream object, discarding the returned value. -/
def StreamCall.run {ε : Type} (s : Audio_Stream ε) : StreamCall → Audio_Stream ε
  | .set_finished b => s.set_finished b
  | .get_finished => s.get_finished.2

/-- Perform a finite sequence of calls, left to right. -/
def runCalls {ε : Type} (s : Audio_Stream ε) (calls : List StreamCall) : Audio_Stream ε :=
  calls.foldl StreamCall.run s

/-! ## Audio_Manager -/

/-- The three pure-virtual member functions of `Audio_Stream`, as a concrete subclass
implements them (its virtual table). `setup_stream(sample_rate)` and `stop_stream()` return
`void` and so only update the object; `get_sample(output, count, channels)` returns its `int`
result, the samples it wrote to `output` (indexed by frame and channel) and the updated
object. -/
structure StreamImpl (ε : Type) where
  setup_stream : Nat → Audio_Stream ε → Audio_Stream ε
  get_sample : Nat → Nat → Audio_Stream ε → Int × (Nat → Nat → Int) × Audio_Stream ε
  stop_stream : Audio_Stream ε → Audio_Stream ε

/-- A `std::shared_ptr<Audio_Stream>`: the identity of the pointee (`id`), the dynamic type of
the pointee (`impl`) and the state of the pointee (`obj`). -/
structure StreamRef (ε : Type) where
  id : Nat
  impl : StreamImpl ε
  obj : Audio_Stream ε

/-- The data members of `Audio_Manager` that the mixing engine and the stream registry use.
`sample_rate` is the header field `uint32_t sample_rate`, with `none` for the state in which
no sample rate has been established; `volume` is the header field `float volume`, taken as a
rational number; `converted_volume` is the header field `int32_t converted_volume`, which
the mixing pass reads at that width. The driver and device members belong to the device
binding and are left out. -/
structure Audio_Manager (ε : Type) where
  audio_enabled : Bool
  sample_rate : Option Nat
  volume : ℚ
  converted_volume : Int
  streams : List (StreamRef ε)

/-- The conversion of a wide integer to `int16_t`: reduction modulo 2^16 into the signed
range. -/
def wrap16 (x : Int) : Int :=
  (x + 32768) % 65536 - 32768

/-- The value a wide integer has as an `int32_t`: reduction modulo 2^32 into the signed range.
This is the width of the header field `int32_t converted_volume`, of the parameter of
`clip16(int32_t input)` and of the two fields of a `WAVE_32BS` sample; arithmetic that leaves
the range wraps around. -/
def wrap32 (x : Int) : Int :=
  (x + 2147483648) % 4294967296 - 2147483648

/-- Modelled from the spec: the body of `Audio_Manager::clip16`, of which the header has only
the declaration `static int16_t clip16(int32_t input)`. It is the saturating clamp of section
4.3 step 7: values below -32768 become -32768, values above 32767 become 32767. -/
def clip16 (input : Int) : Int :=
  if input < -32768 then -32768
  else if input > 32767 then 32767
  else input

/-- The status codes the registry operations report. -/
inductive Status where
  | Success
  | NotReady
  deriving DecidableEq, Repr

/-- Modelled from the spec: the converted volume, a fixed-point scalar derived from the volume
with `shift` fraction bits, `shift` being the amount of the descaling shift of section 4.3
step 6. The design document fixes neither `shift` nor the rounding: `shift` is a parameter and
the fraction below the last bit is dropped. -/
def to_fixed (shift : Nat) (v : ℚ) : Int :=
  ⌊v * 2 ^ shift⌋

/-- Modelled from the spec: the body of `Audio_Manager::set_volume`, declared in the header
as `void set_volume(float new_volume)`. Section 4.4: clamps to [0,1] and recomputes the
converted volume. -/
def set_volume {ε : Type} (shift : Nat) (m : Audio_Manager ε) (new_volume : ℚ) :
    Audio_Manager ε :=
  let v : ℚ := if new_volume < 0 then 0 else if new_volume > 1 then 1 else new_volume
  { m with volume := v, converted_volume := to_fixed shift v }

/-- Modelled from the spec: the body of `Audio_Manager::get_volume`, declared in the header
as `float get_volume() const`. -/
def get_volume {ε : Type} (m : Audio_Manager ε) : ℚ :=
  m.volume

/-- Modelled from the spec: the body of `Audio_Manager::add_stream`, declared in the header as
`int add_stream(std::shared_ptr<Audio_Stream> stream)`. Section 4.2: fails with `NotReady` if
the manager is disabled or no sample rate has been established; otherwise calls
`setup_stream` with the current sample rate and appends the stream to the registry. The
result is the status, the manager and the stream object after the call. `setup_stream`
returns `void` in the header, so it has no failure to report. -/
def add_stream {ε : Type} (m : Audio_Manager ε) (stream : StreamRef ε) :
    Status × Audio_Manager ε × StreamRef ε :=
  if m.audio_enabled = false then (Status.NotReady, m, stream)
  else
    match m.sample_rate with
    | none => (Status.NotReady, m, stream)
    | some rate =>
      let configured : StreamRef ε :=
        { stream with obj := stream.impl.setup_stream rate stream.obj }
      (Status.Success, { m with streams := m.streams ++ [configured] }, configured)

/-- The effect of invoking `stop_stream()` through a stream pointer. -/
def StreamRef.stop {ε : Type} (s : StreamRef ε) : StreamRef ε :=
  { s with obj := s.impl.stop_stream s.obj }

/-- Modelled from the spec: the body of `Audio_Manager::clean_up`, declared in the header as
`void clean_up()`. Section 4.4: stops and releases every registered stream and leaves the
manager in the disabled, empty state. The result is the manager and the streams on which
`stop_stream()` was invoked. -/
def clean_up {ε : Type} (m : Audio_Manager ε) : Audio_Manager ε × List (StreamRef ε) :=
  ({ m with audio_enabled := false, streams := [] }, m.streams.map StreamRef.stop)

/-- What the mixing engine holds for one stream after calling `get_sample` on it: the stream
with its updated object, the returned frame count and the scratch buffer it filled. -/
structure Pulled (ε : Type) where
  stream : StreamRef ε
  produced : Int
  scratch : Nat → Nat → Int

/-- Call `get_sample(scratch, count, channels)` on one stream. -/
def pull {ε : Type} (count channels : Nat) (s : StreamRef ε) : Pulled ε :=
  let r := s.impl.get_sample count channels s.obj
  { stream := { s with obj := r.2.2 }, produced := r.1, scratch := r.2.1 }

/-- Modelled from the spec: step 3 of the mixing pass (section 4.3). Visits the registered
streams in order; a stream that returns 0 adds nothing to the accumulator, any other stream
has its scratch buffer added to the accumulator frame by frame and channel by channel. The
accumulator has the sample representation of the streams (section 6), the 32-bit fields of
`WAVE_32BS` named in the header, so every sum is taken as an `int32_t`. Returns the
accumulator and the visited streams. -/
def visit {ε : Type} (count channels : Nat) :
    List (StreamRef ε) → (Nat → Nat → Int) → (Nat → Nat → Int) × List (Pulled ε)
  | [], acc => (acc, [])
  | s :: rest, acc =>
    let p := pull count channels s
    let acc1 : Nat → Nat → Int :=
      if p.produced = 0 then acc else fun f c => wrap32 (acc f c + p.scratch f c)
    let r := visit count channels rest acc1
    (r.1, p :: r.2)

/-- Modelled from the spec: the test of step 4 of the mixing pass, a stream that is exhausted
(its `get_sample` returned 0) or whose `get_finished()` is true. -/
def marked {ε : Type} (p : Pulled ε) : Bool :=
  p.produced == 0 || p.stream.obj.get_finished.1

/-- The outcome of one mixing pass: the manager afterwards, the interleaved output buffer
(`count * channels` samples, frame by frame) and the streams on which `stop_stream()` was
invoked during the pass, one entry per invocation. -/
structure PassResult (ε : Type) where
  manager : Audio_Manager ε
  output : List Int
  stopped : List (StreamRef ε)

/-- Modelled from the spec: the body of `Audio_Manager::callback`, of which the header has
only the declaration. Section 4.3: zero the accumulator, visit every registered stream
(step 3), remove and stop every stream that is finished or exhausted (step 4), multiply each
accumulated sample by the converted volume and shift it right by `shift` bits (step 6), clip
it with `clip16` (step 7) and write it interleaved by channel (step 8). The widths are those
of the header: the converted volume is read as the `int32_t` it is stored in, the product of
the 32-bit accumulator and the converted volume is an `int32_t`, and so is the argument of
`clip16(int32_t input)`. The value the callback returns to the device binding is left open by
the design document and is not part of the result. -/
def callback {ε : Type} (shift : Nat) (m : Audio_Manager ε) (count channels : Nat) :
    PassResult ε :=
  let r := visit count channels m.streams (fun _ _ => 0)
  { manager := { m with streams := (r.2.filter (fun p => !marked p)).map Pulled.stream },
    output := (List.range (count * channels)).map (fun i =>
      clip16 (wrap32 (wrap32 (r.1 (i / channels) (i % channels) *
        wrap32 m.converted_volume) >>> shift))),
    stopped := (r.2.filter marked).map (fun p => p.stream.stop) }

/-- Run `n` mixing passes in a row; the result is the manager afterwards and the streams on
which `stop_stream()` was invoked, in order, over all the passes. -/
def run_passes {ε : Type} (shift count channels : Nat) :
    Nat → Audio_Manager ε → Audio_Manager ε × List (StreamRef ε)
  | 0, m => (m, [])
  | n + 1, m =>
    let r := callback shift m count channels
    let rest := run_passes shift count channels n r.manager
    (rest.1, r.stopped ++ rest.2)

/-- The identities of the streams in a list of stream pointers. -/
def ids {ε : Type} (l : List (StreamRef ε)) : List Nat :=
  l.map StreamRef.id

/-- A stream subclass without fields of its own that fills every requested frame and channel
with the constant `v` and reports `count` frames produced. -/
def constant_stream (v : Int) : StreamImpl Unit where
  setup_stream := fun _ s => s
  get_sample := fun count _ s => ((count : Int), (fun _ _ => v), s)
  stop_stream := fun s => s

/-- A stream subclass whose only field counts the calls of `stop_stream()`. Its `get_sample`
writes silence and returns `produced`, so `counted_stream 0` is an exhausted stream. -/
def counted_stream (produced : Int) : StreamImpl Nat where
  setup_stream := fun _ s => s
  get_sample := fun _ _ s => (produced, (fun _ _ => 0), s)
  stop_stream := fun s => { s with derived := s.derived + 1 }

/-- A manager over counted streams with the given registry, enabled, at 44100 Hz, with volume
1.0 in 8.8 fixed point. -/
def counted_manager (l : List (StreamRef Nat)) : Audio_Manager Nat :=
  { audio_enabled := true, sample_rate := some 44100, volume := 1,
    converted_volume := 256, streams := l }

/-- A manager with the given registry, enabled, at 44100 Hz, with volume 1.0 in 8.8 fixed
point. -/
def manager_with (l : List (StreamRef Unit)) : Audio_Manager Unit :=
  { audio_enabled := true, sample_rate := some 44100, volume := 1,
    converted_volume := 256, streams := l }

/-! ## Auxiliary facts about the mixing pass -/

section PassLemmas

variable {ε : Type}

/-- The streams visited in step 3 are the registered streams, each after its `get_sample`. -/
theorem visit_snd (count channels : Nat) (l : List (StreamRef ε)) (acc : Nat → Nat → Int) :
    (visit count channels l acc).2 = l.map (pull count channels) := by
  induction l generalizing acc with
  | nil => rfl
  | cons s rest ih => simp [visit, ih]

/-- The identities of the streams kept by a pass followed by those of the streams stopped
in it are a rearrangement of the identities registered before the pass. -/
theorem callback_ids_perm (shift count channels : Nat) (m : Audio_Manager ε) :
    List.Perm (ids (callback shift m count channels).manager.streams ++
      ids (callback shift m count channels).stopped) (ids m.streams) := by
  have h := List.filter_append_perm (fun p : Pulled ε => !marked p)
    (m.streams.map (pull count channels))
  have h2 := h.map (fun p : Pulled ε => p.stream.id)
  simp only [callback, ids, visit_snd, List.map_map]
  simp only [List.map_append, List.map_map, Bool.not_not] at h2
  have e : ((fun p : Pulled ε => p.stream.id) ∘ pull count channels) = StreamRef.id := rfl
  rw [e] at h2
  exact h2

/-- Over any number of passes, the identities still registered followed by the identities
stopped so far are a rearrangement of the identities registered at the start. -/
theorem run_passes_ids_perm (shift count channels n : Nat) (m : Audio_Manager ε) :
    List.Perm (ids (run_passes shift count channels n m).1.streams ++
      ids (run_passes shift count channels n m).2) (ids m.streams) := by
  induction n generalizing m with
  | zero => simp [run_passes, ids]
  | succ n ih =>
    have h1 := ih (callback shift m count channels).manager
    have h2 := callback_ids_perm shift count channels m
    simp only [run_passes]
    have e : ids ((callback shift m count channels).stopped ++
        (run_passes shift count channels n (callback shift m count channels).manager).2) =
        ids (callback shift m count channels).stopped ++
        ids (run_passes shift count channels n (callback shift m count channels).manager).2 := by
      simp [ids]
    rw [e]
    refine List.Perm.trans ?_ h2
    refine List.Perm.trans ?_ (List.perm_append_comm)
    refine List.Perm.trans ?_ (List.Perm.append_left _ h1)
    simp only [← List.append_assoc]
    exact List.Perm.append_right _ List.perm_append_comm |>.trans (by simp)

/-- A registered stream that is exhausted or finished after its `get_sample` has
`stop_stream()` invoked on it in the pass. -/
theorem mem_stopped_of_marked (shift count channels : Nat) (m : Audio_Manager ε)
    (s : StreamRef ε) (hs : s ∈ m.streams) (hm : marked (pull count channels s) = true) :
    (pull count channels s).stream.stop ∈ (callback shift m count channels).stopped := by
  simp only [callback, visit_snd, List.mem_map, List.mem_filter]
  exact ⟨pull count channels s, ⟨⟨s, hs, rfl⟩, hm⟩, rfl⟩

/-- A registered stream that is neither exhausted nor finished after its `get_sample` is in
the registry after the pass. -/
theorem mem_kept_of_not_marked (shift count channels : Nat) (m : Audio_Manager ε)
    (s : StreamRef ε) (hs : s ∈ m.streams) (hm : marked (pull count channels s) = false) :
    (pull count channels s).stream ∈ (callback shift m count channels).manager.streams := by
  simp only [callback, visit_snd, List.mem_map, List.mem_filter]
  exact ⟨pull count channels s, ⟨⟨s, hs, rfl⟩, by simp [hm]⟩, rfl⟩

end PassLemmas

/-! ## Theorems about Audio_Stream -/

section StreamTheorems

variable {ε : Type}

/-- C1: after `set_finished(flag)`, for either value of `flag` and any stream state,
`get_finished()` returns true; in particular `set_finished(false)` on a freshly constructed
stream makes `get_finished()` return true. -/
theorem set_finished_forces_true (s : Audio_Stream ε) (flag : Bool) (d : ε) :
    (s.set_finished flag).get_finished.1 = true ∧
    ((Audio_Stream.ctor d).set_finished false).get_finished.1 = true :=
  ⟨rfl, rfl⟩

/-- C2: once `get_finished()` is true, it is still true after any finite sequence of
`set_finished(b)` and `get_finished()` calls. -/
theorem finished_monotonic (s : Audio_Stream ε) (calls : List StreamCall)
    (h : s.get_finished.1 = true) : (runCalls s calls).get_finished.1 = true := by
  induction calls generalizing s with
  | nil => exact h
  | cons c cs ih =>
    cases c with
    | set_finished b => exact ih (s.set_finished b) rfl
    | get_finished => exact ih s.get_finished.2 h

/-- Witness for C2 on a finished stream and a three-call sequence. -/
theorem finished_monotonic_witness :
    (Audio_Stream.mk true ()).get_finished.1 = true ∧
    (runCalls (Audio_Stream.mk true ())
      [.set_finished false, .get_finished, .set_finished true]).get_finished.1 = true :=
  ⟨rfl, finished_monotonic (Audio_Stream.mk true ())
    [.set_finished false, .get_finished, .set_finished true] rfl⟩

/-- C8: `get_finished()` called right after the constructor returns false. -/
theorem fresh_stream_not_finished (d : ε) :
    (Audio_Stream.ctor d).get_finished.1 = false :=
  rfl

/-- C9: `get_finished()` returns the current value of the field `finished`, leaves the object
unchanged, and two consecutive calls return the same value. -/
theorem get_finished_pure (s : Audio_Stream ε) :
    s.get_finished.1 = s.finished ∧ s.get_finished.2 = s ∧
    s.get_finished.2.get_finished.1 = s.get_finished.1 :=
  ⟨rfl, rfl, rfl⟩

/-- C10: `set_finished(a)` followed by `set_finished(b)` leaves the same state as
`set_finished(a)` alone, and `set_finished(true)` leaves the same state as
`set_finished(false)`. -/
theorem set_finished_idempotent (s : Audio_Stream ε) (a b : Bool) :
    (s.set_finished a).set_finished b = s.set_finished a ∧
    s.set_finished true = s.set_finished false :=
  ⟨rfl, rfl⟩

end StreamTheorems

/-! ## Theorems about Audio_Manager -/

section ManagerTheorems

variable {ε : Type}

/-- C3: for every 32-bit signed input, `clip16` returns -32768 below -32768, 32767 above
32767 and the input itself in between; the result fits `int16_t`, so the conversion to the
return type does not wrap it. -/
theorem clip16_saturates (x : Int) (h : -2147483648 ≤ x ∧ x ≤ 2147483647) :
    (x < -32768 → clip16 x = -32768) ∧
    (x > 32767 → clip16 x = 32767) ∧
    (-32768 ≤ x ∧ x ≤ 32767 → clip16 x = x) ∧
    wrap16 (clip16 x) = clip16 x := by
  refine ⟨fun h1 => ?_, fun h2 => ?_, fun h3 => ?_, ?_⟩
  · simp [clip16, h1]
  · have : ¬ x < -32768 := by omega
    simp [clip16, this, h2]
  · have h4 : ¬ x < -32768 := by omega
    have h5 : ¬ x > 32767 := by omega
    simp [clip16, h4, h5]
  · unfold clip16 wrap16
    split_ifs <;> omega

/-- Witness for C3 at an input below, an input above and an input inside the 16-bit range. -/
theorem clip16_saturates_witness :
    clip16 (-40000) = -32768 ∧ clip16 60000 = 32767 ∧ clip16 20000 = 20000 ∧
    wrap16 (clip16 60000) = clip16 60000 :=
  ⟨(clip16_saturates (-40000) (by decide)).1 (by decide),
   (clip16_saturates 60000 (by decide)).2.1 (by decide),
   (clip16_saturates 20000 (by decide)).2.2.1 (by decide),
   (clip16_saturates 60000 (by decide)).2.2.2⟩

/-- C6: `set_volume(v)` stores 0 for every v below 0, 1 for every v above 1 and v itself for
every v in [0,1], as `get_volume()` reports; the stored converted volume is the conversion of
the stored (clamped) volume. -/
theorem set_volume_clamps (shift : Nat) (m : Audio_Manager ε) (v : ℚ) :
    (v < 0 → get_volume (set_volume shift m v) = 0) ∧
    (v > 1 → get_volume (set_volume shift m v) = 1) ∧
    (0 ≤ v ∧ v ≤ 1 → get_volume (set_volume shift m v) = v) ∧
    (set_volume shift m v).converted_volume =
      to_fixed shift (get_volume (set_volume shift m v)) := by
  refine ⟨fun h1 => ?_, fun h2 => ?_, fun h3 => ?_, rfl⟩
  · simp [get_volume, set_volume, h1]
  · have : ¬ v < 0 := not_lt.mpr (le_trans zero_le_one h2.le)
    simp [get_volume, set_volume, this, h2]
  · have h4 : ¬ v < 0 := not_lt.mpr h3.1
    have h5 : ¬ v > 1 := not_lt.mpr h3.2
    simp [get_volume, set_volume, h4, h5]

/-- Witness for C6 at the inputs -1, 5 and 1/2. -/
theorem set_volume_clamps_witness :
    get_volume (set_volume 8 (manager_with []) (-1)) = 0 ∧
    get_volume (set_volume 8 (manager_with []) 5) = 1 ∧
    get_volume (set_volume 8 (manager_with []) (1 / 2)) = 1 / 2 ∧
    (set_volume 8 (manager_with []) 5).converted_volume =
      to_fixed 8 (get_volume (set_volume 8 (manager_with []) 5)) :=
  ⟨(set_volume_clamps 8 (manager_with []) (-1)).1 (by norm_num),
   (set_volume_clamps 8 (manager_with []) 5).2.1 (by norm_num),
   (set_volume_clamps 8 (manager_with []) (1 / 2)).2.2.1 (by norm_num),
   (set_volume_clamps 8 (manager_with []) 5).2.2.2⟩

/-- C5: when the manager is disabled or no sample rate has been established, `add_stream`
returns the not-ready status, leaves the manager (and so the registry) unchanged and does not
configure the stream; after `clean_up()`, `add_stream` returns the not-ready status and the
registry is empty. -/
theorem add_stream_not_ready (m : Audio_Manager ε) (stream : StreamRef ε) :
    (m.audio_enabled = false ∨ m.sample_rate = none →
      (add_stream m stream).1 = Status.NotReady ∧
      (add_stream m stream).2.1 = m ∧
      (add_stream m stream).2.2 = stream) ∧
    (add_stream (clean_up m).1 stream).1 = Status.NotReady ∧
    (add_stream (clean_up m).1 stream).1 ≠ Status.Success ∧
    (add_stream (clean_up m).1 stream).2.1.streams = [] := by
  refine ⟨fun h => ?_, ?_, ?_, ?_⟩
  · rcases h with h | h
    · simp [add_stream, h]
    · by_cases he : m.audio_enabled = false
      · simp [add_stream, he]
      · simp [add_stream, he, h]
  · simp [add_stream, clean_up]
  · simp [add_stream, clean_up]
  · simp [add_stream, clean_up]

/-- Witness for C5: a disabled manager with one registered stream refuses a second one. -/
theorem add_stream_not_ready_witness :
    (add_stream { manager_with [⟨1, constant_stream 5, ⟨false, ()⟩⟩] with audio_enabled := false }
      ⟨2, constant_stream 7, ⟨false, ()⟩⟩).1 = Status.NotReady ∧
    ids (add_stream { manager_with [⟨1, constant_stream 5, ⟨false, ()⟩⟩] with audio_enabled := false }
      ⟨2, constant_stream 7, ⟨false, ()⟩⟩).2.1.streams = [1] :=
  ⟨((add_stream_not_ready
      { manager_with [⟨1, constant_stream 5, ⟨false, ()⟩⟩] with audio_enabled := false }
      ⟨2, constant_stream 7, ⟨false, ()⟩⟩).1 (Or.inl rfl)).1,
   by rw [((add_stream_not_ready
      { manager_with [⟨1, constant_stream 5, ⟨false, ()⟩⟩] with audio_enabled := false }
      ⟨2, constant_stream 7, ⟨false, ()⟩⟩).1 (Or.inl rfl)).2.1]; rfl⟩

/-- C7 (amended): in a registry in which no stream appears twice, a stream whose `get_sample`
returns 0 in a pass is out of the registry after that same pass and has had `stop_stream()`
invoked on it exactly once in that pass; a stream that returned a non-zero count and is not
finished stays registered and is not stopped; the registry still has no stream twice; over
any number of passes no stream is stopped twice, and a stopped stream is no longer
registered. -/
theorem exhausted_stream_stopped_once (shift count channels : Nat) (m : Audio_Manager ε)
    (hnd : (ids m.streams).Nodup) :
    (∀ s ∈ m.streams, (s.impl.get_sample count channels s.obj).1 = 0 →
      s.id ∉ ids (callback shift m count channels).manager.streams ∧
      (ids (callback shift m count channels).stopped).count s.id = 1 ∧
      ∃ t ∈ (callback shift m count channels).stopped, t.id = s.id ∧
        t.obj = s.impl.stop_stream (s.impl.get_sample count channels s.obj).2.2) ∧
    (∀ s ∈ m.streams, (s.impl.get_sample count channels s.obj).1 ≠ 0 →
      (s.impl.get_sample count channels s.obj).2.2.get_finished.1 = false →
      (pull count channels s).stream ∈ (callback shift m count channels).manager.streams ∧
      s.id ∉ ids (callback shift m count channels).stopped) ∧
    (ids (callback shift m count channels).manager.streams).Nodup ∧
    (∀ n, (ids (run_passes shift count channels n m).2).Nodup ∧
      ∀ i ∈ ids (run_passes shift count channels n m).2,
        i ∉ ids (run_passes shift count channels n m).1.streams) := by
  have hperm := callback_ids_perm shift count channels m
  have hnd1 := (hperm.nodup_iff).mpr hnd
  rw [List.nodup_append] at hnd1
  obtain ⟨hkept, hstop, hdisj⟩ := hnd1
  refine ⟨fun s hs h0 => ?_, fun s hs h1 h2 => ?_, hkept, fun n => ?_⟩
  · have hm : marked (pull count channels s) = true := by
      simp [marked, pull, h0]
    have hel := mem_stopped_of_marked shift count channels m s hs hm
    have hmem : s.id ∈ ids (callback shift m count channels).stopped :=
      List.mem_map.mpr ⟨_, hel, rfl⟩
    exact ⟨fun hk => hdisj hk hmem, List.count_eq_one_of_mem hstop hmem, _, hel, rfl, rfl⟩
  · have hm : marked (pull count channels s) = false := by
      simp only [marked, pull, Bool.or_eq_false_iff]
      exact ⟨by simpa using h1, h2⟩
    have hmem := mem_kept_of_not_marked shift count channels m s hs hm
    refine ⟨hmem, fun hst => hdisj ?_ hst⟩
    exact List.mem_map.mpr ⟨_, hmem, rfl⟩
  · have hp := run_passes_ids_perm shift count channels n m
    have hn := (hp.nodup_iff).mpr hnd
    rw [List.nodup_append] at hn
    exact ⟨hn.2.1, fun i hi hk => hn.2.2 hk hi⟩

/-- Witness for C7: a registry of one exhausted and one live stream; in the pass the exhausted
stream is stopped once (its call counter goes from 0 to 1). -/
theorem exhausted_stream_stopped_once_witness :
    (ids (callback 8 (counted_manager [⟨1, counted_stream 0, ⟨false, 0⟩⟩,
      ⟨2, counted_stream 4, ⟨false, 0⟩⟩]) 4 2).stopped).count 1 = 1 ∧
    ∃ t ∈ (callback 8 (counted_manager [⟨1, counted_stream 0, ⟨false, 0⟩⟩,
      ⟨2, counted_stream 4, ⟨false, 0⟩⟩]) 4 2).stopped, t.id = 1 ∧ t.obj = ⟨false, 1⟩ :=
  ((exhausted_stream_stopped_once 8 4 2 (counted_manager [⟨1, counted_stream 0, ⟨false, 0⟩⟩,
      ⟨2, counted_stream 4, ⟨false, 0⟩⟩]) (by decide)).1
      ⟨1, counted_stream 0, ⟨false, 0⟩⟩ (List.mem_cons_self _ _) rfl).2

/-- Counterexample to C7 as stated: an exhausted stream is stopped in the very pass in which
its `get_sample` returns 0, and the following pass stops nothing; and a stream that
`add_stream` registered twice has `stop_stream()` invoked twice in one pass. -/
theorem stop_once_counterexample :
    ids (callback 8 (counted_manager [⟨1, counted_stream 0, ⟨false, 0⟩⟩]) 4 2).stopped = [1] ∧
    ids (callback 8 (callback 8 (counted_manager [⟨1, counted_stream 0, ⟨false, 0⟩⟩])
      4 2).manager 4 2).stopped = [] ∧
    (add_stream (add_stream (counted_manager []) ⟨1, counted_stream 0, ⟨false, 0⟩⟩).2.1
      ⟨1, counted_stream 0, ⟨false, 0⟩⟩).1 = Status.Success ∧
    ids (add_stream (add_stream (counted_manager []) ⟨1, counted_stream 0, ⟨false, 0⟩⟩).2.1
      ⟨1, counted_stream 0, ⟨false, 0⟩⟩).2.1.streams = [1, 1] ∧
    (ids (callback 8 (add_stream (add_stream (counted_manager [])
      ⟨1, counted_stream 0, ⟨false, 0⟩⟩).2.1 ⟨1, counted_stream 0, ⟨false, 0⟩⟩).2.1
      4 2).stopped).count 1 = 2 := by
  refine ⟨by decide, by decide, by decide, by decide, by decide⟩

end ManagerTheorems

end AudioManager
